import Mathlib

/-!
Verification development for the SPI data-visualization dashboard (viz.py).

The program loads a primary table (spi_data) and a salary table (salary_data),
left-merges the salary table onto the primary table by player name
(df_combined), and exposes two callbacks:

  - update_graph(selected_team, selected_archetypes, age_range): filters
    spi_data with an if/else branch on the team sentinel "ALL" and builds an
    impact scatter with width 800, height 800, xaxis scaleanchor "y" and
    yaxis range [-5, 5];
  - update_scatter_plot(selected_metric, selected_team, selected_archetypes,
    age_range): filters df_combined with a single boolean-mask expression
    whose team term is a conditional expression, picks a trendline color from
    selected_metric, and builds a salary scatter with an OLS trendline.

Tables are embedded as lists of records whose fields are Option-valued where
the pandas column can hold NaN; every pandas comparison or membership test on
a null value yields false, which the opt* helpers encode.
-/

namespace SPIViz

/-- A row of the primary table spi_data: player name, team, offensive
archetype, age, offensive and defensive impact, position, value added.
The Team column contains nulls (viz.py drops them when building
valid_teams), so every non-key field is Option-valued. -/
structure SpiRow where
  player : String
  team : Option String
  archetype : Option String
  age : Option Int
  ospi : Option Rat
  dspi : Option Rat
  pos : Option String
  valueAdded : Option Rat
deriving DecidableEq

/-- A row of the reduced salary table: salary_data[[ Player Name, Salary ]]. -/
structure SalaryRow where
  playerName : String
  salary : Option Rat
deriving DecidableEq

/-- A row of df_combined: the salary columns followed by the spi_data
columns, all of the latter null when the player name had no match. -/
structure CombinedRow where
  playerName : String
  salary : Option Rat
  player : Option String
  team : Option String
  archetype : Option String
  age : Option Int
  ospi : Option Rat
  dspi : Option Rat
  pos : Option String
  valueAdded : Option Rat
deriving DecidableEq

/-- Pandas equality of a possibly-null cell with a string: null compares
unequal to everything. -/
def optEqStr : Option String → String → Bool
  | some a, b => a == b
  | none, _ => false

/-- Pandas Series.isin on a possibly-null cell: a null cell is not a member
of a list of selected strings. -/
def optIsin : Option String → List String → Bool
  | some a, xs => xs.contains a
  | none, _ => false

/-- Pandas comparison cell >= bound: false on a null cell. -/
def optGe : Option Int → Int → Bool
  | some a, b => b ≤ a
  | none, _ => false

/-- Pandas comparison cell <= bound: false on a null cell. -/
def optLe : Option Int → Int → Bool
  | some a, b => a ≤ b
  | none, _ => false

/-- The filtering step of update_graph (viz.py lines 114-126): an if/else
branch on the sentinel "ALL"; the ALL branch tests archetype membership and
the inclusive age range, the other branch additionally tests Team equality. -/
def update_graph_filter (spi_data : List SpiRow) (selected_team : String)
    (selected_archetypes : List String) (age_range : Int × Int) : List SpiRow :=
  if selected_team == "ALL" then
    spi_data.filter fun r =>
      optIsin r.archetype selected_archetypes &&
      optGe r.age age_range.1 &&
      optLe r.age age_range.2
  else
    spi_data.filter fun r =>
      optEqStr r.team selected_team &&
      optIsin r.archetype selected_archetypes &&
      optGe r.age age_range.1 &&
      optLe r.age age_range.2

/-- The team term of the mask in update_scatter_plot (viz.py line 162): a
conditional expression that is the Team equality mask when the selection is
not "ALL" and the constant True otherwise. -/
def teamMask (r : CombinedRow) (selected_team : String) : Bool :=
  if selected_team != "ALL" then optEqStr r.team selected_team else true

/-- The filtering step of update_scatter_plot (viz.py lines 161-166): a
single mask combining the conditional team term with archetype membership
and the inclusive age range. -/
def update_scatter_filter (df_combined : List CombinedRow) (selected_team : String)
    (selected_archetypes : List String) (age_range : Int × Int) : List CombinedRow :=
  df_combined.filter fun r =>
    teamMask r selected_team &&
    optIsin r.archetype selected_archetypes &&
    optGe r.age age_range.1 &&
    optLe r.age age_range.2

/-- df_combined (viz.py line 16): pandas pd.merge(salary_data, spi_data,
left_on="Player Name", right_on="Player", how=left). Each salary row is
emitted once per matching spi row, in left-then-right order; a salary row
with no match is emitted once with every spi column null. -/
def merge_left (salary_data : List SalaryRow) (spi_data : List SpiRow) :
    List CombinedRow :=
  salary_data.flatMap fun s =>
    match spi_data.filter (fun p => p.player == s.playerName) with
    | [] => [{ playerName := s.playerName, salary := s.salary, player := none,
               team := none, archetype := none, age := none, ospi := none,
               dspi := none, pos := none, valueAdded := none }]
    | m :: ms => (m :: ms).map fun p =>
        { playerName := s.playerName, salary := s.salary, player := some p.player,
          team := p.team, archetype := p.archetype, age := p.age, ospi := p.ospi,
          dspi := p.dspi, pos := p.pos, valueAdded := p.valueAdded }

/-- good_color (viz.py line 23). -/
def good_color : String := "#008000"

/-- bad_color (viz.py line 24). -/
def bad_color : String := "#FF0000"

/-- offense_color (viz.py line 25). -/
def offense_color : String := "#0000FF"

/-- defense_color (viz.py line 26). -/
def defense_color : String := "#2f4f4f"

/-- The values of the metric dropdown (viz.py lines 92-94); selected_metric
is always one of these three strings. -/
def metric_dropdown_values : List String := ["O-SPI", "D-SPI", "SPI"]

/-- The trendline-color selection of update_scatter_plot (viz.py lines
169-174), exactly as written: it compares selected_metric against the label
strings of the dropdown, not against its value strings. -/
def trendline_color (selected_metric : String) : String :=
  if selected_metric == "SPI vs Salary" then good_color
  else if selected_metric == "O-SPI vs Salary" then offense_color
  else defense_color

/-- The layout parameters update_graph sets on its figure (viz.py lines
139-147): fixed pixel width and height, the x axis anchored to the y scale,
and a fixed y-axis range. -/
structure ImpactFigureLayout where
  width : Nat
  height : Nat
  xaxis_scaleanchor : String
  yaxis_range : Int × Int
deriving DecidableEq

/-- The figure update_graph returns: the scatter points are the filtered
rows, and the layout carries the fixed constants. -/
structure ImpactFigure where
  points : List SpiRow
  layout : ImpactFigureLayout
deriving DecidableEq

/-- update_graph (viz.py lines 112-149): filter spi_data, then build the
impact scatter over exactly the filtered rows with the fixed layout. -/
def update_graph (spi_data : List SpiRow) (selected_team : String)
    (selected_archetypes : List String) (age_range : Int × Int) : ImpactFigure :=
  { points := update_graph_filter spi_data selected_team selected_archetypes age_range,
    layout := { width := 800, height := 800, xaxis_scaleanchor := "y",
                yaxis_range := (-5, 5) } }

/-- The mask expression of update_scatter_plot (viz.py lines 161-166)
transcribed onto a primary-table row, so that both filter implementations
can be applied to the same table: the conditional team term, archetype
membership, and the inclusive age range. -/
def scatter_mask_on_spi (table : List SpiRow) (selected_team : String)
    (selected_archetypes : List String) (age_range : Int × Int) : List SpiRow :=
  table.filter fun r =>
    (if selected_team != "ALL" then optEqStr r.team selected_team else true) &&
    optIsin r.archetype selected_archetypes &&
    optGe r.age age_range.1 &&
    optLe r.age age_range.2

/-- The row-inclusion predicate in the words of the spec (section 4.2):
include a row iff (team is the all-sentinel OR the row team equals the
selected team) AND the row archetype is a selected archetype AND the row
age lies in the inclusive range. -/
def specIncludeRow (selected_team : String) (selected_archetypes : List String)
    (age_range : Int × Int) (r : SpiRow) : Bool :=
  (selected_team == "ALL" || optEqStr r.team selected_team) &&
  optIsin r.archetype selected_archetypes &&
  optGe r.age age_range.1 &&
  optLe r.age age_range.2

/-- A one-row primary table used to evaluate claims on concrete data: one
player on team X with archetype S and age 25. -/
def tableA : List SpiRow :=
  [{ player := "A", team := some "X", archetype := some "S", age := some 25,
     ospi := some 3, dspi := some (-1), pos := some "G", valueAdded := some 1 }]

/-- A one-row salary table whose player name has no primary-table match. -/
def salaryU : List SalaryRow := [{ playerName := "A", salary := some 100 }]

/-- A one-row primary table whose player name matches no salary row: its
full archetype set is [S] and its full observed age range is [25, 25]. -/
def spiU : List SpiRow :=
  [{ player := "B", team := some "X", archetype := some "S", age := some 25,
     ospi := some 2, dspi := some 1, pos := some "F", valueAdded := some 1 }]

/-- The combined row merge_left produces for the unmatched salary row of
salaryU: every spi column is null. -/
def rowU : CombinedRow :=
  { playerName := "A", salary := some 100, player := none, team := none,
    archetype := none, age := none, ospi := none, dspi := none, pos := none,
    valueAdded := none }

/-- A one-row salary table matched by exactly one primary row. -/
def salaryM : List SalaryRow := [{ playerName := "C", salary := some 50 }]

/-- A one-row primary table matching salaryM exactly once; its full
archetype set is [S] and its full observed age range is [30, 30]. -/
def spiM : List SpiRow :=
  [{ player := "C", team := some "Y", archetype := some "S", age := some 30,
     ospi := some 1, dspi := some 0, pos := some "C", valueAdded := some 2 }]

/-! Helper lemmas -/

/-- Membership in no selected archetype: the isin test on the empty
selection is false for every cell. -/
theorem optIsin_nil (x : Option String) : optIsin x [] = false := by
  cases x <;> rfl

/-- A cell passing the pandas equality test is the non-null cell holding
exactly the compared string. -/
theorem optEqStr_eq_some {x : Option String} {t : String}
    (h : optEqStr x t = true) : x = some t := by
  cases x with
  | none => simp [optEqStr] at h
  | some a =>
    simp only [optEqStr, beq_iff_eq] at h
    rw [h]

/-- A combined row with a null Player column comes from the no-match arm of
merge_left, so its archetype and age columns are null as well. -/
theorem merge_left_unmatched_fields {salary : List SalaryRow}
    {spi : List SpiRow} {r : CombinedRow} (hr : r ∈ merge_left salary spi)
    (hnull : r.player = none) : r.archetype = none ∧ r.age = none := by
  simp only [merge_left, List.mem_flatMap] at hr
  obtain ⟨s, _, hrs⟩ := hr
  cases hfilter : spi.filter (fun p => p.player == s.playerName) with
  | nil =>
    rw [hfilter] at hrs
    simp only [List.mem_singleton] at hrs
    subst hrs
    exact ⟨rfl, rfl⟩
  | cons m ms =>
    rw [hfilter] at hrs
    simp only [List.mem_map] at hrs
    obtain ⟨p, _, hpr⟩ := hrs
    rw [← hpr] at hnull
    simp at hnull

/-! Claim theorems -/

/-- C1: for every primary table, team selection, archetype set, and
inclusive age range, the filtering step of update_graph returns exactly the
rows satisfying (team is ALL OR row.team equals the team) AND the row
archetype is selected AND the row age is inside the inclusive range, in the
original row order (the result is obtained by List.filter, and is a sublist
of the table). -/
theorem update_graph_filter_correct (table : List SpiRow) (t : String)
    (archs : List String) (lo hi : Int) :
    update_graph_filter table t archs (lo, hi) =
      table.filter (specIncludeRow t archs (lo, hi)) ∧
    (update_graph_filter table t archs (lo, hi)).Sublist table := by
  refine ⟨?_, ?_⟩
  · by_cases h : t = "ALL"
    · subst h
      simp only [update_graph_filter, beq_self_eq_true, if_true]
      refine List.filter_congr fun r _ => ?_
      simp [specIncludeRow]
    · simp only [update_graph_filter, beq_iff_eq, if_neg h]
      refine List.filter_congr fun r _ => ?_
      have hb : (t == "ALL") = false := beq_eq_false_iff_ne.mpr h
      simp [specIncludeRow, hb, Bool.and_assoc]
  · unfold update_graph_filter
    split <;> exact List.filter_sublist _

/-- C4: with the ALL sentinel selected, the team term of the mask in
update_scatter_plot is the constant true, so the filter returns exactly the
rows passing the archetype-membership and age-range tests, whatever each
row team is. -/
theorem update_scatter_filter_all (table : List CombinedRow)
    (archs : List String) (lo hi : Int) :
    update_scatter_filter table "ALL" archs (lo, hi) =
      table.filter (fun r =>
        optIsin r.archetype archs && optGe r.age lo && optLe r.age hi) := by
  simp [update_scatter_filter, teamMask, Bool.and_assoc]

/-- C6: with an empty archetype selection, the filtering step of
update_graph returns the empty result for every table, team, and age range:
there is no implicit match-all. -/
theorem update_graph_filter_empty_archetypes (table : List SpiRow)
    (t : String) (lo hi : Int) :
    update_graph_filter table t [] (lo, hi) = [] := by
  unfold update_graph_filter
  split <;> exact List.filter_eq_nil_iff.mpr (fun r _ => by simp [optIsin_nil])

/-- C9: for every table and selection, the figure update_graph returns has
width 800, height 800, the x axis scale-anchored to the y axis, a y-axis
range fixed to [-5, 5], and its points are exactly the filtered rows: rows
whose defensive impact lies outside [-5, 5] are clipped by the axis range,
not removed from the data. -/
theorem update_graph_layout_fixed (table : List SpiRow) (t : String)
    (archs : List String) (age_range : Int × Int) :
    (update_graph table t archs age_range).layout =
      { width := 800, height := 800, xaxis_scaleanchor := "y",
        yaxis_range := (-5, 5) } ∧
    (update_graph table t archs age_range).points =
      update_graph_filter table t archs age_range :=
  ⟨rfl, rfl⟩

/-- C10: the if/else filter of update_graph and the conditional-expression
mask of update_scatter_plot select exactly the same rows on every table and
every selection. -/
theorem filter_implementations_agree (table : List SpiRow) (t : String)
    (archs : List String) (age_range : Int × Int) :
    update_graph_filter table t archs age_range =
      scatter_mask_on_spi table t archs age_range := by
  by_cases h : t = "ALL"
  · subst h
    simp [update_graph_filter, scatter_mask_on_spi]
  · simp [update_graph_filter, scatter_mask_on_spi, h]

/-- C2 is false of the code: the dropdown values are "O-SPI", "D-SPI" and
"SPI", but update_scatter_plot compares selected_metric against the label
strings "SPI vs Salary" and "O-SPI vs Salary", so the comparison never
succeeds and the trendline color is defense_color for all three dropdown
values; in particular it is not green for "SPI" and not blue for "O-SPI". -/
theorem trendline_color_always_defense :
    trendline_color "SPI" = defense_color ∧
    trendline_color "O-SPI" = defense_color ∧
    trendline_color "D-SPI" = defense_color ∧
    trendline_color "SPI" ≠ good_color ∧
    trendline_color "O-SPI" ≠ offense_color ∧
    metric_dropdown_values = ["O-SPI", "D-SPI", "SPI"] := by
  decide

/-- C7 as stated is false: on the one-row table tableA, filtering with the
specific team X returns the same non-empty row list as filtering with ALL
under the same archetype set [S] and age range [20, 30], so the team-X
result is not a strict subset of the ALL result. -/
theorem team_filter_not_strict_subset :
    update_graph_filter tableA "X" ["S"] (20, 30) =
      update_graph_filter tableA "ALL" ["S"] (20, 30) ∧
    update_graph_filter tableA "X" ["S"] (20, 30) ≠ [] := by
  decide

/-- C7 amended: for a specific team selection (not the ALL sentinel), the
filter result is a subset (sublist, hence not necessarily strict) of the
ALL result under the same archetype set and age range, and every returned
row has that team. -/
theorem update_graph_filter_team_subset (table : List SpiRow) (t : String)
    (archs : List String) (lo hi : Int) (h : t ≠ "ALL") :
    (update_graph_filter table t archs (lo, hi)).Sublist
      (update_graph_filter table "ALL" archs (lo, hi)) ∧
    ∀ r ∈ update_graph_filter table t archs (lo, hi), r.team = some t := by
  have key : update_graph_filter table t archs (lo, hi) =
      (update_graph_filter table "ALL" archs (lo, hi)).filter
        (fun r => optEqStr r.team t) := by
    simp only [update_graph_filter, beq_self_eq_true, if_true, beq_iff_eq,
      if_neg h, List.filter_filter]
    refine List.filter_congr fun r _ => ?_
    simp [Bool.and_assoc, Bool.and_comm, Bool.and_left_comm]
  constructor
  · rw [key]
    exact List.filter_sublist _
  · intro r hr
    rw [key] at hr
    exact optEqStr_eq_some (List.mem_filter.mp hr).2

/-- Witness for the amended C7 at the concrete table tableA with team X. -/
theorem update_graph_filter_team_subset_witness :
    (update_graph_filter tableA "X" ["S"] (20, 30)).Sublist
      (update_graph_filter tableA "ALL" ["S"] (20, 30)) ∧
    ∀ r ∈ update_graph_filter tableA "X" ["S"] (20, 30), r.team = some "X" :=
  update_graph_filter_team_subset tableA "X" ["S"] 20 30 (by decide)

/-- C5 as stated is false: salaryU has one row, whose player name matches
no row of spiU, so merge_left keeps it once with null spi columns; but
filtering the combined table with team ALL, the full archetype set [S] of
spiU, and the full observed age range [25, 25] drops the null row, so the
filtered row count differs from the salary row count. -/
theorem merge_round_trip_fails :
    (update_scatter_filter (merge_left salaryU spiU) "ALL" ["S"]
      (25, 25)).length = 0 ∧
    salaryU.length = 1 ∧
    (update_scatter_filter (merge_left salaryU spiU) "ALL" ["S"]
      (25, 25)).length ≠ salaryU.length := by
  decide

/-- C5 amended: when every salary player name matches exactly one primary
row, and every primary row passes the archetype and age selections (the
full archetype set and full observed age range), each salary record appears
exactly once in the combined table and the filtered combined table has
exactly as many rows as the salary table. Unmatched salary rows are kept in
the combined table with null spi columns but are dropped by the filter, and
a salary name matching several primary rows is emitted once per match. -/
theorem merge_filter_round_trip (salary : List SalaryRow) (spi : List SpiRow)
    (archs : List String) (lo hi : Int)
    (hmatch : ∀ s ∈ salary,
      (spi.filter fun p => p.player == s.playerName).length = 1)
    (hfull : ∀ p ∈ spi, optIsin p.archetype archs = true ∧
      optGe p.age lo = true ∧ optLe p.age hi = true) :
    (merge_left salary spi).length = salary.length ∧
    (update_scatter_filter (merge_left salary spi) "ALL" archs
      (lo, hi)).length = salary.length := by
  revert hmatch
  induction salary with
  | nil => exact fun _ => ⟨rfl, rfl⟩
  | cons s rest ih =>
    intro hmatch
    have hs := hmatch s (List.mem_cons_self s rest)
    obtain ⟨p, hp⟩ := List.length_eq_one.mp hs
    have hpmem : p ∈ spi :=
      List.mem_of_mem_filter (hp ▸ List.mem_singleton_self p)
    obtain ⟨h1, h2, h3⟩ := hfull p hpmem
    have ihr := ih fun x hx => hmatch x (List.mem_cons_of_mem s hx)
    have hmerge : merge_left (s :: rest) spi =
        ({ playerName := s.playerName, salary := s.salary,
           player := some p.player, team := p.team, archetype := p.archetype,
           age := p.age, ospi := p.ospi, dspi := p.dspi, pos := p.pos,
           valueAdded := p.valueAdded } : CombinedRow) ::
          merge_left rest spi := by
      simp only [merge_left, List.flatMap_cons, hp, List.map_cons,
        List.map_nil, List.singleton_append]
    constructor
    · rw [hmerge, List.length_cons, ihr.1]
      rfl
    · rw [hmerge]
      simp only [update_scatter_filter] at ihr ⊢
      rw [List.filter_cons_of_pos (by simp [teamMask, h1, h2, h3]),
        List.length_cons, ihr.2]
      rfl

/-- Witness for the amended C5: one salary row matched by exactly one
primary row, with the full archetype set and full observed age range. -/
theorem merge_filter_round_trip_witness :
    (merge_left salaryM spiM).length = salaryM.length ∧
    (update_scatter_filter (merge_left salaryM spiM) "ALL" ["S"]
      (30, 30)).length = salaryM.length :=
  merge_filter_round_trip salaryM spiM ["S"] 30 30 (by decide) (by decide)

/-- C8: a combined row whose Player column is null (a salary name with no
primary-table match, so its spi columns are all null) is excluded by the
filtering step of update_scatter_plot for every team, archetype, and age
selection, because the null archetype fails the isin test and the null age
fails the range comparisons. -/
theorem unmatched_rows_excluded (salary : List SalaryRow) (spi : List SpiRow)
    (t : String) (archs : List String) (lo hi : Int) (r : CombinedRow)
    (hr : r ∈ merge_left salary spi) (hnull : r.player = none) :
    r ∉ update_scatter_filter (merge_left salary spi) t archs (lo, hi) := by
  obtain ⟨harch, hage⟩ := merge_left_unmatched_fields hr hnull
  intro hmem
  simp only [update_scatter_filter] at hmem
  have hpred := (List.mem_filter.mp hmem).2
  simp [harch, hage, optIsin, optGe] at hpred

/-- Witness for C8: the null combined row produced for the unmatched salary
row of salaryU is excluded by the filter. -/
theorem unmatched_rows_excluded_witness :
    rowU ∉ update_scatter_filter (merge_left salaryU spiU) "ALL" ["S"]
      (25, 25) :=
  unmatched_rows_excluded salaryU spiU "ALL" ["S"] 25 25 rowU (by decide)
    (by decide)

end SPIViz
